/-
Verification of the image_qc backend against its specification.

The development shallowly embeds the two source files of the repository:

* `src/backend/api/index.py` — the FastAPI read/write service: the two
  toggle transactions (`toggle_status`, `toggle_issue`), the role lookup
  (`get_role`) and the read-side merge of `get_images`.
* `src/backend/pipeline/main.py` — the Firestore-to-BigQuery replication
  trigger: the tagged-value decoder (`parse_value`,
  `parse_firestore_document`) and the row projector (`transform_to_bq_row`).

Firestore collections are embedded as association lists from document id to
document; documents are records whose fields are `Option`-typed, `none`
standing for an absent field. A `set` with `merge=True` is embedded as a
record update of the previous document (or of the all-absent document when
the document did not exist), which is exactly Firestore merge semantics for
the flat payloads the code writes. Event ids and timestamps, produced in the
code by `uuid.uuid4()` and `datetime.utcnow()`, are explicit parameters.
-/
import Mathlib

set_option autoImplicit false

/-- Lookup in an association list: the Python `dict.get`, first binding wins. -/
def alistLookup {α : Type} : List (String × α) → String → Option α
  | [], _ => none
  | (k, v) :: rest, key => if k = key then some v else alistLookup rest key

/-- Write a key in an association list: replace the first binding of the key
if present, otherwise append the new binding at the end (Python dict
assignment / Firestore document set, insertion order preserved). -/
def alistSet {α : Type} : List (String × α) → String → α → List (String × α)
  | [], key, v => [(key, v)]
  | (k, w) :: rest, key, v =>
      if k = key then (key, v) :: rest else (k, w) :: alistSet rest key v

theorem alistLookup_alistSet_self {α : Type} (l : List (String × α)) (k : String) (v : α) :
    alistLookup (alistSet l k v) k = some v := by
  induction l with
  | nil => simp [alistLookup, alistSet]
  | cons hd tl ih =>
      obtain ⟨k', w⟩ := hd
      by_cases h : k' = k
      · simp [alistLookup, alistSet, h]
      · simp [alistLookup, alistSet, h, ih]

theorem alistSet_of_lookup_none {α : Type} (l : List (String × α)) (k : String) (v : α)
    (h : alistLookup l k = none) : alistSet l k v = l ++ [(k, v)] := by
  induction l with
  | nil => simp [alistSet]
  | cons hd tl ih =>
      obtain ⟨k', w⟩ := hd
      by_cases hk : k' = k
      · simp [alistLookup, hk] at h
      · simp [alistLookup, hk] at h
        simp [alistSet, hk, ih h]

theorem alistLookup_append_none {α : Type} (l₁ l₂ : List (String × α)) (k : String)
    (h₁ : alistLookup l₁ k = none) (h₂ : alistLookup l₂ k = none) :
    alistLookup (l₁ ++ l₂) k = none := by
  induction l₁ with
  | nil => simpa using h₂
  | cons hd tl ih =>
      obtain ⟨k', w⟩ := hd
      by_cases hk : k' = k
      · simp [alistLookup, hk] at h₁
      · simp [alistLookup, hk] at h₁ ⊢
        exact ih h₁

-- ### Data model of the mutable store (`qc_current_state`, `qc_event_log`, `Reviewers`)

/-- A document of the `qc_current_state` collection. Every field is optional:
`none` is an absent field (a document created by one toggle only carries the
fields that toggle wrote). -/
structure StateDoc where
  product_variant_id : Option String
  image_index : Option Int
  review_status : Option String
  issues : Option (List (String × Bool))
  updated_by : Option String
  updated_at : Option Nat
deriving DecidableEq

/-- The document with every field absent; merge-writing into a non-existent
document starts from this. -/
def emptyStateDoc : StateDoc :=
  { product_variant_id := none, image_index := none, review_status := none,
    issues := none, updated_by := none, updated_at := none }

/-- A document of the `qc_event_log` collection. `STATUS_CHANGE` events carry
`old_status`/`new_status`; `ISSUE_CHANGE` events carry the issue fields;
fields the writing code does not include are `none`. -/
structure EventDoc where
  event_id : String
  event_ts : Nat
  event_type : String
  product_variant_id : String
  image_index : Int
  old_status : Option String
  new_status : Option String
  issue_key : Option String
  old_issue_value : Option Bool
  new_issue_value : Option Bool
  issues_snapshot : Option (List (String × Bool))
  actor : String
deriving DecidableEq

/-- A document of the `Reviewers` collection (`doc.to_dict().get("role")`). -/
structure ReviewerDoc where
  role : Option String
deriving DecidableEq

/-- The mutable document store: the three collections the API touches. -/
structure FS where
  qc_current_state : List (String × StateDoc)
  qc_event_log : List (String × EventDoc)
  reviewers : List (String × ReviewerDoc)
deriving DecidableEq

-- ### Request/response models (pydantic models of `index.py`)

structure ToggleRequest where
  product_variant_id : String
  image_index : Int
  actor : String
deriving DecidableEq

structure ToggleResponse where
  new_status : String
  event_id : String
deriving DecidableEq

structure IssueToggleRequest where
  product_variant_id : String
  image_index : Int
  actor : String
  issue_key : String
  value : Bool
deriving DecidableEq

structure IssueToggleResponse where
  status : String
  event_id : String
deriving DecidableEq

/-- Model `RoleResponse` of `index.py`. The pydantic field is named `exists`;
that word is reserved in Lean, so the field is `exists_` here. -/
structure RoleResponse where
  email : String
  role : String
  exists_ : Bool
deriving DecidableEq

/-- An `HTTPException` raised by an endpoint. -/
structure HTTPError where
  status_code : Nat
  detail : String
deriving DecidableEq

/-- Function `get_firestore_doc_id` of `index.py`: pvid, two underscores,
then the image index. -/
def get_firestore_doc_id (pvid : String) (image_index : Int) : String :=
  pvid ++ "__" ++ toString image_index

/-- The fixed closed set of issue keys (`ISSUE_KEYS` in `index.py`). -/
def ISSUE_KEYS : List String :=
  ["image_blur", "cropped_image", "mrp_present_in_image", "image_quality", "aspect_ratio"]

-- ### The two toggle transactions

/-- The status both transaction bodies read from the snapshot: the stored
`review_status`, defaulting to `NOT_REVIEWED` when the document or the field
is absent. -/
def currentStatus (store : FS) (doc_id : String) : String :=
  match alistLookup store.qc_current_state doc_id with
  | none => "NOT_REVIEWED"
  | some data => data.review_status.getD "NOT_REVIEWED"

/-- The issues map the issue transaction reads from the snapshot
(absent document or absent/falsy field gives the empty dict). -/
def currentIssues (store : FS) (doc_id : String) : List (String × Bool) :=
  match alistLookup store.qc_current_state doc_id with
  | none => []
  | some data => data.issues.getD []

/-- The flipped status `toggle_status` computes and writes:
`"REVIEWED" if current_status == "NOT_REVIEWED" else "NOT_REVIEWED"`. -/
def newStatusOf (store : FS) (doc_id : String) : String :=
  if currentStatus store doc_id = "NOT_REVIEWED" then "REVIEWED" else "NOT_REVIEWED"

/-- The `qc_current_state` document the status toggle merge-writes: the
previous document (or the all-absent one) with the five payload fields
overwritten; `issues` is not in the payload, hence preserved. -/
def statusWriteDoc (store : FS) (req : ToggleRequest) (event_ts : Nat) : StateDoc :=
  let doc_id := get_firestore_doc_id req.product_variant_id req.image_index
  { (alistLookup store.qc_current_state doc_id).getD emptyStateDoc with
    product_variant_id := some req.product_variant_id,
    image_index := some req.image_index,
    review_status := some (newStatusOf store doc_id),
    updated_by := some req.actor,
    updated_at := some event_ts }

/-- The `STATUS_CHANGE` event document the status toggle appends. -/
def statusEventOf (store : FS) (req : ToggleRequest) (event_id : String)
    (event_ts : Nat) : EventDoc :=
  let doc_id := get_firestore_doc_id req.product_variant_id req.image_index
  { event_id := event_id, event_ts := event_ts, event_type := "STATUS_CHANGE",
    product_variant_id := req.product_variant_id, image_index := req.image_index,
    old_status := some (currentStatus store doc_id),
    new_status := some (newStatusOf store doc_id),
    issue_key := none, old_issue_value := none, new_issue_value := none,
    issues_snapshot := none, actor := req.actor }

/-- The transaction body of `toggle_status` (`index.py` lines 470-510),
run against a configured store. Returns the updated store and the HTTP
response. The fresh `event_id` and the capture timestamp `event_ts` are
parameters. -/
def toggle_status_core (store : FS) (req : ToggleRequest) (event_id : String)
    (event_ts : Nat) : FS × ToggleResponse :=
  let doc_id := get_firestore_doc_id req.product_variant_id req.image_index
  ({ store with
      qc_current_state :=
        alistSet store.qc_current_state doc_id (statusWriteDoc store req event_ts),
      qc_event_log :=
        alistSet store.qc_event_log event_id (statusEventOf store req event_id event_ts) },
   { new_status := newStatusOf store doc_id, event_id := event_id })

/-- Endpoint `toggle_status` (`POST /qc/toggle`): 503 when the store is not
configured, otherwise run the transaction. -/
def toggle_status (fs : Option FS) (req : ToggleRequest) (event_id : String)
    (event_ts : Nat) : Except HTTPError (FS × ToggleResponse) :=
  match fs with
  | none => .error { status_code := 503, detail := "Firestore not configured. System is Read-Only." }
  | some store => .ok (toggle_status_core store req event_id event_ts)

/-- The old value of the targeted flag: `bool(current_issues.get(key, False))`. -/
def oldIssueValueOf (store : FS) (doc_id issue_key : String) : Bool :=
  (alistLookup (currentIssues store doc_id) issue_key).getD false

/-- The issues map after `current_issues[req.issue_key] = new_value`. -/
def newIssuesOf (store : FS) (doc_id issue_key : String) (value : Bool) :
    List (String × Bool) :=
  alistSet (currentIssues store doc_id) issue_key value

/-- The `qc_current_state` document the issue toggle merge-writes: the
previous document with the full updated issues map and the *unchanged*
`review_status` written back. -/
def issueWriteDoc (store : FS) (req : IssueToggleRequest) (event_ts : Nat) : StateDoc :=
  let doc_id := get_firestore_doc_id req.product_variant_id req.image_index
  { (alistLookup store.qc_current_state doc_id).getD emptyStateDoc with
    product_variant_id := some req.product_variant_id,
    image_index := some req.image_index,
    review_status := some (currentStatus store doc_id),
    issues := some (newIssuesOf store doc_id req.issue_key req.value),
    updated_by := some req.actor,
    updated_at := some event_ts }

/-- The `ISSUE_CHANGE` event document the issue toggle appends, carrying the
key, old/new boolean and the full post-update issues snapshot. -/
def issueEventOf (store : FS) (req : IssueToggleRequest) (event_id : String)
    (event_ts : Nat) : EventDoc :=
  let doc_id := get_firestore_doc_id req.product_variant_id req.image_index
  { event_id := event_id, event_ts := event_ts, event_type := "ISSUE_CHANGE",
    product_variant_id := req.product_variant_id, image_index := req.image_index,
    old_status := none, new_status := none,
    issue_key := some req.issue_key,
    old_issue_value := some (oldIssueValueOf store doc_id req.issue_key),
    new_issue_value := some req.value,
    issues_snapshot := some (newIssuesOf store doc_id req.issue_key req.value),
    actor := req.actor }

/-- The transaction body of `toggle_issue` (`index.py` lines 532-581),
run against a configured store, for an already validated issue key. -/
def toggle_issue_core (store : FS) (req : IssueToggleRequest) (event_id : String)
    (event_ts : Nat) : FS × IssueToggleResponse :=
  let doc_id := get_firestore_doc_id req.product_variant_id req.image_index
  ({ store with
      qc_current_state :=
        alistSet store.qc_current_state doc_id (issueWriteDoc store req event_ts),
      qc_event_log :=
        alistSet store.qc_event_log event_id (issueEventOf store req event_id event_ts) },
   { status := "ok", event_id := event_id })

/-- Endpoint `toggle_issue` (`POST /qc/issues/toggle`): 503 when the store is not
configured, 400 when the issue key is outside `ISSUE_KEYS`, otherwise run
the transaction. The quote characters of the Python detail string are
written `\x27`. -/
def toggle_issue (fs : Option FS) (req : IssueToggleRequest) (event_id : String)
    (event_ts : Nat) : Except HTTPError (FS × IssueToggleResponse) :=
  match fs with
  | none => .error { status_code := 503, detail := "Firestore not configured. System is Read-Only." }
  | some store =>
      if req.issue_key ∈ ISSUE_KEYS then
        .ok (toggle_issue_core store req event_id event_ts)
      else
        .error { status_code := 400,
                 detail := "Invalid issue_key \x27" ++ req.issue_key ++ "\x27" }

/-- Endpoint `get_role` (`GET /me/role`): without a configured store everyone is a
viewer with `exists = false`; otherwise look the email up in `Reviewers`. -/
def get_role (fs : Option FS) (email : String) : RoleResponse :=
  match fs with
  | none => { email := email, role := "viewer", exists_ := false }
  | some store =>
      match alistLookup store.reviewers email with
      | none => { email := email, role := "viewer", exists_ := false }
      | some data =>
          let role :=
            if data.role = some "reviewer" then "reviewer"
            else if data.role = some "admin" then "admin"
            else "viewer"
          { email := email, role := role, exists_ := true }

-- ### Read-side merge (`get_images`, `index.py` lines 331-456)

/-- One catalog row returned by the BigQuery page query. The wide numbered
columns `image_url1..10`, `aspect_ratio1..10`, `meta_3x4_1..10`,
`hide_padding1..10`, `dpi_1..10`, `white_bg1..10` are embedded as functions
of the slot index; `none` is a NULL column value. Catalog floats (`dpi`) are
embedded as rationals: the code only copies them through. -/
structure BqRow where
  product_variant_id : String
  brand_name : String
  product_name : String
  category_name : String
  subcategory_name : String
  l3_category_name : String
  created_date_bucket_label : String
  image_url : Nat → Option String
  aspect_ratio : Nat → Option String
  meta_3x4 : Nat → Option String
  hide_padding : Nat → Option Bool
  dpi : Nat → Option Rat
  white_bg : Nat → Option Bool

/-- The per-slot dict built inside the BQ row loop (`index.py` 358-366). -/
structure RawImage where
  image_index : Nat
  image_url : String
  aspect_ratio_value : Option String
  meta_3x4 : Option String
  hide_padding : Option Bool
  dpi : Option Rat
  white_bg : Option Bool
deriving DecidableEq

/-- The per-pvid dict of `pvid_items` (`index.py` 337-349). -/
structure RawItem where
  product_variant_id : String
  brand_name : String
  product_name : String
  category_name : String
  subcategory_name : String
  l3_category_name : String
  created_date_bucket_label : String
  images : List RawImage
deriving DecidableEq

/-- Pydantic model `ImageIssues`: the five issue flags, defaulting to false. -/
structure ImageIssues where
  image_blur : Bool
  cropped_image : Bool
  mrp_present_in_image : Bool
  image_quality : Bool
  aspect_ratio : Bool
deriving DecidableEq

/-- Pydantic model `ImageItem`: one merged image slot. -/
structure ImageItem where
  image_index : Nat
  image_url : String
  aspect_ratio_value : Option String
  meta_3x4 : Option String
  hide_padding : Option Bool
  dpi : Option Rat
  white_bg : Option Bool
  review_status : String
  issues : ImageIssues
  updated_by : Option String
  updated_at : Option Nat
deriving DecidableEq

/-- Pydantic model `PvidItem`: one product of the page. -/
structure PvidItem where
  product_variant_id : String
  brand_name : String
  product_name : String
  category_name : String
  subcategory_name : String
  l3_category_name : String
  created_date_bucket_label : String
  pvid_review_status : String
  images : List ImageItem
deriving DecidableEq

/-- The ten numbered image slots, Python `range(1, 11)`. -/
def slotIndices : List Nat := [1, 2, 3, 4, 5, 6, 7, 8, 9, 10]

/-- Expand one catalog row into its populated image slots
(`index.py` 352-367): a slot exists iff its URL is non-NULL and non-empty
(`if not url: continue`). -/
def rowImages (row : BqRow) : List RawImage :=
  slotIndices.filterMap (fun idx =>
    match row.image_url idx with
    | none => none
    | some url =>
        if url = "" then none
        else some
          { image_index := idx, image_url := url,
            aspect_ratio_value := row.aspect_ratio idx,
            meta_3x4 := row.meta_3x4 idx,
            hide_padding := row.hide_padding idx,
            dpi := row.dpi idx,
            white_bg := row.white_bg idx })

/-- The entry `pvid_items.setdefault(...)` creates for a row it sees first. -/
def rawOfRow (row : BqRow) : RawItem :=
  { product_variant_id := row.product_variant_id,
    brand_name := row.brand_name,
    product_name := row.product_name,
    category_name := row.category_name,
    subcategory_name := row.subcategory_name,
    l3_category_name := row.l3_category_name,
    created_date_bucket_label := row.created_date_bucket_label,
    images := rowImages row }

/-- Fold one catalog row into the insertion-ordered `pvid_items` mapping:
`setdefault` keeps the first row's attributes and appends this row's
populated slots to the entry's image list. -/
def addRow : List RawItem → BqRow → List RawItem
  | [], row => [rawOfRow row]
  | it :: rest, row =>
      if it.product_variant_id = row.product_variant_id then
        { it with images := it.images ++ rowImages row } :: rest
      else
        it :: addRow rest row

/-- Step 2 of the merge: group the page's catalog rows by pvid, preserving
first-appearance order (`index.py` 332-367). -/
def build_pvid_items (bq_rows : List BqRow) : List RawItem :=
  bq_rows.foldl addRow []

/-- Merge one populated slot with its review state (`index.py` 391-423):
default `NOT_REVIEWED`, empty issues, absent actor/timestamp when the
document is missing (`fs_map.get(did, {})`). -/
def mergeImage (pvid : String) (fs_map : List (String × StateDoc))
    (img : RawImage) : ImageItem :=
  let state := (alistLookup fs_map (get_firestore_doc_id pvid img.image_index)).getD emptyStateDoc
  let review_status := state.review_status.getD "NOT_REVIEWED"
  let issues_state := state.issues.getD []
  { image_index := img.image_index,
    image_url := img.image_url,
    aspect_ratio_value := img.aspect_ratio_value,
    meta_3x4 := img.meta_3x4,
    hide_padding := img.hide_padding,
    dpi := img.dpi,
    white_bg := img.white_bg,
    review_status := review_status,
    issues :=
      { image_blur := (alistLookup issues_state "image_blur").getD false,
        cropped_image := (alistLookup issues_state "cropped_image").getD false,
        mrp_present_in_image := (alistLookup issues_state "mrp_present_in_image").getD false,
        image_quality := (alistLookup issues_state "image_quality").getD false,
        aspect_ratio := (alistLookup issues_state "aspect_ratio").getD false },
    updated_by := state.updated_by,
    updated_at := state.updated_at }

/-- The inner merge loop over a product's slots, threading the
`all_images_reviewed` flag exactly as the Python loop does: the flag drops
to false at every slot whose merged status differs from `REVIEWED`. -/
def mergeImagesLoop (pvid : String) (fs_map : List (String × StateDoc)) :
    List RawImage → Bool → List ImageItem × Bool
  | [], flag => ([], flag)
  | img :: rest, flag =>
      let item := mergeImage pvid fs_map img
      let flag1 := if item.review_status = "REVIEWED" then flag else false
      let tail := mergeImagesLoop pvid fs_map rest flag1
      (item :: tail.1, tail.2)

/-- Process one grouped product: merge its slots, then compute the aggregate
`pvid_review_status` (`index.py` 388-426). The flag starts as
`True if raw_item["images"] else False`, and the final status is
`"REVIEWED" if all_images_reviewed and merged_images else "NOT_REVIEWED"`. -/
def processRawItem (fs_map : List (String × StateDoc)) (item : RawItem) : PvidItem :=
  let merged := mergeImagesLoop item.product_variant_id fs_map item.images (!item.images.isEmpty)
  let pvid_review_status :=
    if merged.2 && !merged.1.isEmpty then "REVIEWED" else "NOT_REVIEWED"
  { product_variant_id := item.product_variant_id,
    brand_name := item.brand_name,
    product_name := item.product_name,
    category_name := item.category_name,
    subcategory_name := item.subcategory_name,
    l3_category_name := item.l3_category_name,
    created_date_bucket_label := item.created_date_bucket_label,
    pvid_review_status := pvid_review_status,
    images := merged.1 }

/-- The post-merge status filter (`index.py` 429-433). `none` is a missing
`status` query parameter; an empty string is falsy in Python, so it also
skips the filter. -/
def keepByStatus (status : Option String) (pvid_review_status : String) : Bool :=
  match status with
  | none => true
  | some s =>
      if s ≠ "" && s ≠ "All" then
        if s = "REVIEWED" && pvid_review_status ≠ "REVIEWED" then false
        else if s = "NOT_REVIEWED" && pvid_review_status = "REVIEWED" then false
        else true
      else true

/-- Steps 2-7 of the read-side merge: group the fetched catalog rows,
merge each product with the review-state map, compute the aggregate status
and apply the in-memory status filter (`index.py` 331-447). -/
def get_images_merge (bq_rows : List BqRow) (fs_map : List (String × StateDoc))
    (status : Option String) : List PvidItem :=
  (build_pvid_items bq_rows).filterMap (fun raw =>
    let p := processRawItem fs_map raw
    if keepByStatus status p.pvid_review_status then some p else none)

-- ### Replication pipeline (`pipeline/main.py`)

/-- A Firestore tagged value as delivered in the change-data-capture payload:
every leaf is wrapped in an explicit type tag. `untagged` stands for a value
dict carrying none of the recognized tags (`parse_value` returns `None` for
those). `integerValue` carries its JSON string encoding; `doubleValue`
floats are embedded as rationals (the code only converts and copies them). -/
inductive TaggedValue where
  | stringValue (s : String)
  | integerValue (s : String)
  | doubleValue (q : Rat)
  | booleanValue (b : Bool)
  | timestampValue (s : String)
  | mapValue (fields : List (String × TaggedValue))
  | arrayValue (values : List TaggedValue)
  | nullValue
  | untagged

/-- A plain Python value produced by the decoder: string, int, float,
bool, list, dict or `None`. -/
inductive PValue where
  | str (s : String)
  | int (n : Int)
  | rat (q : Rat)
  | bool (b : Bool)
  | list (vs : List PValue)
  | map (fields : List (String × PValue))
  | null

/-- Accumulate decimal digits, as Python `int` does on the digit body. -/
def digitsToNat : List Char → Nat → Option Nat
  | [], acc => some acc
  | c :: rest, acc =>
      if c.isDigit then digitsToNat rest (acc * 10 + (c.toNat - 48)) else none

/-- Python `int(s)` on a string, `none` for a raised `ValueError`: an
optional sign followed by decimal digits (surrounding whitespace and digit
underscores, which Python also accepts, are not modelled). -/
def pyInt (s : String) : Option Int :=
  match s.data with
  | [] => none
  | '-' :: rest =>
      match rest with
      | [] => none
      | _ => (digitsToNat rest 0).map (fun n => -(n : Int))
  | l => (digitsToNat l 0).map (fun n => (n : Int))

/-
The decoder `parse_value` of `pipeline/main.py` (lines 83-104), mutually
recursive with the field traversal over maps and arrays. `none` is a raised
exception: the only raising operation is `int` applied to an `integerValue`
payload that is not an integer literal (embedded via `pyInt`).
`timestampValue` payloads are returned unconverted, as the code does.
A mapValue dict wraps its own fields mapping; the embedding carries the
fields list directly, a missing fields key being the empty list
(the code reads it with a get defaulting to the empty dict).
-/
mutual
/-- Recursive unwrapping of one tagged value. -/
def parse_value : TaggedValue → Option PValue
  | .stringValue s => some (.str s)
  | .integerValue s => (pyInt s).map PValue.int
  | .doubleValue q => some (.rat q)
  | .booleanValue b => some (.bool b)
  | .timestampValue s => some (.str s)
  | .mapValue fields => (parse_fields fields).map PValue.map
  | .arrayValue vs => (parse_values vs).map PValue.list
  | .nullValue => some .null
  | .untagged => some .null

def parse_fields : List (String × TaggedValue) → Option (List (String × PValue))
  | [] => some []
  | (k, v) :: rest =>
      match parse_value v, parse_fields rest with
      | some pv, some prest => some ((k, pv) :: prest)
      | _, _ => none

def parse_values : List TaggedValue → Option (List PValue)
  | [] => some []
  | v :: rest =>
      match parse_value v, parse_values rest with
      | some pv, some prest => some (pv :: prest)
      | _, _ => none
end

/-- Function `parse_firestore_document`: unwrap every field of the document. -/
def parse_firestore_document (fields : List (String × TaggedValue)) :
    Option (List (String × PValue)) :=
  parse_fields fields

/-- Lowercase hex digit. -/
def hexDigitChar (n : Nat) : Char :=
  if n < 10 then Char.ofNat (48 + n) else Char.ofNat (87 + n)

/-- Four lowercase hex digits, as in a JSON `\u` escape. -/
def hex4 (n : Nat) : String :=
  String.mk [hexDigitChar (n / 4096 % 16), hexDigitChar (n / 256 % 16),
             hexDigitChar (n / 16 % 16), hexDigitChar (n % 16)]

/-- Escaping of one character in a JSON string literal, following
`json.dumps` defaults (`ensure_ascii=True`; code points beyond the basic
multilingual plane abstracted to a single `\u` escape). -/
def jsonEscapeChar (c : Char) : String :=
  if c = '"' then "\\\""
  else if c = '\\' then "\\\\"
  else if c = '\n' then "\\n"
  else if c = '\t' then "\\t"
  else if c = '\r' then "\\r"
  else if c = '\x08' then "\\b"
  else if c = '\x0c' then "\\f"
  else if c.toNat < 32 || c.toNat ≥ 127 then "\\u" ++ hex4 c.toNat
  else String.singleton c

/-- Escape a whole JSON string body. -/
def jsonEscape (s : String) : String :=
  String.join (s.data.map jsonEscapeChar)

/-
Python `json.dumps` on a plain value with the default separators
(comma-space and colon-space): used by the row projector for
`issues_snapshot`. Literal braces in the output are written with hex
escapes.
-/
mutual
/-- Serialization of one plain value. -/
def json_dumps : PValue → String
  | .str s => "\"" ++ jsonEscape s ++ "\""
  | .int n => toString n
  | .rat q => toString q
  | .bool b => if b then "true" else "false"
  | .null => "null"
  | .list vs => "[" ++ json_dumps_values vs ++ "]"
  | .map fields => "\x7b" ++ json_dumps_fields fields ++ "\x7d"

def json_dumps_values : List PValue → String
  | [] => ""
  | [v] => json_dumps v
  | v :: rest => json_dumps v ++ ", " ++ json_dumps_values rest

def json_dumps_fields : List (String × PValue) → String
  | [] => ""
  | [(k, v)] => "\"" ++ jsonEscape k ++ "\": " ++ json_dumps v
  | (k, v) :: rest =>
      "\"" ++ jsonEscape k ++ "\": " ++ json_dumps v ++ ", " ++ json_dumps_fields rest
end

/-- Python `data.get(key)` on the parsed document: a missing key is `None`,
i.e. `PValue.null`. -/
def pyGet (data : List (String × PValue)) (key : String) : PValue :=
  (alistLookup data key).getD PValue.null

/-- The analytical row built by `transform_to_bq_row`: the fixed destination
schema, every column always present in the dict the code builds. -/
structure BqEventRow where
  event_id : PValue
  event_ts : PValue
  event_type : PValue
  actor : PValue
  product_variant_id : PValue
  image_index : PValue
  old_status : PValue
  new_status : PValue
  issue_key : PValue
  old_issue_value : PValue
  new_issue_value : PValue
  issues_snapshot : PValue
  source : PValue

/-- Function `transform_to_bq_row` (`pipeline/main.py` lines 106-134). -/
def transform_to_bq_row (data : List (String × PValue)) : BqEventRow :=
  { event_id := pyGet data "event_id",
    event_ts := pyGet data "event_ts",
    event_type := pyGet data "event_type",
    actor := pyGet data "actor",
    product_variant_id := pyGet data "product_variant_id",
    image_index := pyGet data "image_index",
    old_status := pyGet data "old_status",
    new_status := pyGet data "new_status",
    issue_key := pyGet data "issue_key",
    old_issue_value := pyGet data "old_issue_value",
    new_issue_value := pyGet data "new_issue_value",
    issues_snapshot :=
      match alistLookup data "issues_snapshot" with
      | some v => PValue.str (json_dumps v)
      | none => PValue.null,
    source := PValue.str "firestore_trigger" }

/-- The event payload handed to the trigger: `cloud_event.data`, of which the
handler only reads the optional `"value"` key (the tagged document). -/
structure CloudEventData where
  value : Option (List (String × TaggedValue))

/-- Outcome of one trigger invocation: an early return with no analytical
row, the row handed to the BigQuery insert, or a raised error (which the
platform retries). The insert call itself is external and not embedded: a
successful transformation is reported as `inserted row`. -/
inductive PipelineResult where
  | skipped
  | inserted (row : BqEventRow)
  | error (msg : String)

/-- Handler `firestore_to_bigquery` (`pipeline/main.py` lines 22-69): skip when the
payload has no `value` key, skip when the decoded document is empty,
otherwise project the decoded document onto the analytical row. -/
def firestore_to_bigquery (data : CloudEventData) : PipelineResult :=
  match data.value with
  | none => .skipped
  | some v =>
      match parse_firestore_document v with
      | none => .error "Error processing event"
      | some doc_data =>
          if doc_data.isEmpty then .skipped
          else .inserted (transform_to_bq_row doc_data)

-- ### Claims

/-- C4: decoding the tagged document with fields
`a ↦ stringValue "x"` and `b ↦ mapValue (fields c ↦ integerValue "5")`
yields the plain mapping `a ↦ "x", b ↦ (c ↦ 5)` — string leaves unwrapped,
integer leaves converted from their string encoding, map values recursed
element-wise — and processing a change event whose payload has no `value`
key returns without producing any analytical row and without raising. -/
theorem C4_decode_and_skip :
    parse_firestore_document
        [("a", TaggedValue.stringValue "x"),
         ("b", TaggedValue.mapValue [("c", TaggedValue.integerValue "5")])]
      = some [("a", PValue.str "x"), ("b", PValue.map [("c", PValue.int 5)])] ∧
    firestore_to_bigquery { value := none } = PipelineResult.skipped :=
  ⟨rfl, rfl⟩

/-- C5: with the mutable store unconfigured, both toggles fail with a 503
signal (the `Except.error` carries no mutated store, so no state mutation or
event append happens) and the role lookup answers `viewer` with
`exists = false` instead of erroring. -/
theorem C5_unconfigured_store (req : ToggleRequest) (ireq : IssueToggleRequest)
    (email event_id : String) (event_ts : Nat) :
    toggle_status none req event_id event_ts =
      .error { status_code := 503, detail := "Firestore not configured. System is Read-Only." } ∧
    toggle_issue none ireq event_id event_ts =
      .error { status_code := 503, detail := "Firestore not configured. System is Read-Only." } ∧
    get_role none email = { email := email, role := "viewer", exists_ := false } :=
  ⟨rfl, rfl, rfl⟩

/-- C8: an issue toggle whose `issue_key` lies outside the fixed five-key
set is rejected with a 400 signal; the result is an `Except.error`, so no
review state is written and no event is appended. -/
theorem C8_invalid_issue_key (store : FS) (req : IssueToggleRequest)
    (event_id : String) (event_ts : Nat) (h : req.issue_key ∉ ISSUE_KEYS) :
    toggle_issue (some store) req event_id event_ts =
      .error { status_code := 400,
               detail := "Invalid issue_key \x27" ++ req.issue_key ++ "\x27" } := by
  simp [toggle_issue, h]

/-- Witness for C8 at a concrete invalid key. -/
theorem C8_invalid_issue_key_witness :
    "bogus" ∉ ISSUE_KEYS ∧
    toggle_issue (some { qc_current_state := [], qc_event_log := [], reviewers := [] })
        { product_variant_id := "p", image_index := 1, actor := "qc@example.com",
          issue_key := "bogus", value := true } "e1" 0 =
      .error { status_code := 400,
               detail := "Invalid issue_key \x27" ++ "bogus" ++ "\x27" } :=
  ⟨by decide,
   C8_invalid_issue_key { qc_current_state := [], qc_event_log := [], reviewers := [] }
     { product_variant_id := "p", image_index := 1, actor := "qc@example.com",
       issue_key := "bogus", value := true } "e1" 0 (by decide)⟩

/-- C9: the projected analytical row always carries the full destination
schema (the record type has all thirteen columns), the constant provenance
tag `source = "firestore_trigger"`, every data column equal to the parsed
document's value under Python `get` semantics — so a missing source field
becomes null — and `issues_snapshot` JSON-serialized when present in the
source and null when absent. -/
theorem C9_row_projection (data : List (String × PValue)) :
    (∀ key, alistLookup data key = none → pyGet data key = PValue.null) ∧
    (match alistLookup data "issues_snapshot" with
     | some v => (transform_to_bq_row data).issues_snapshot = PValue.str (json_dumps v)
     | none => (transform_to_bq_row data).issues_snapshot = PValue.null) ∧
    (transform_to_bq_row data).source = PValue.str "firestore_trigger" ∧
    (transform_to_bq_row data).event_id = pyGet data "event_id" ∧
    (transform_to_bq_row data).event_ts = pyGet data "event_ts" ∧
    (transform_to_bq_row data).event_type = pyGet data "event_type" ∧
    (transform_to_bq_row data).actor = pyGet data "actor" ∧
    (transform_to_bq_row data).product_variant_id = pyGet data "product_variant_id" ∧
    (transform_to_bq_row data).image_index = pyGet data "image_index" ∧
    (transform_to_bq_row data).old_status = pyGet data "old_status" ∧
    (transform_to_bq_row data).new_status = pyGet data "new_status" ∧
    (transform_to_bq_row data).issue_key = pyGet data "issue_key" ∧
    (transform_to_bq_row data).old_issue_value = pyGet data "old_issue_value" ∧
    (transform_to_bq_row data).new_issue_value = pyGet data "new_issue_value" := by
  refine ⟨?_, ?_, rfl, rfl, rfl, rfl, rfl, rfl, rfl, rfl, rfl, rfl, rfl, rfl⟩
  · intro key h
    simp [pyGet, h]
  · cases h : alistLookup data "issues_snapshot" with
    | none => simp [transform_to_bq_row, h]
    | some v => simp [transform_to_bq_row, h]

/-- Witness for C9 on a document lacking most fields: the missing
`event_id` column and the missing `issues_snapshot` come out null, and the
provenance tag is present. -/
theorem C9_row_projection_witness :
    pyGet [("event_type", PValue.str "STATUS_CHANGE")] "event_id" = PValue.null ∧
    (transform_to_bq_row [("event_type", PValue.str "STATUS_CHANGE")]).issues_snapshot
      = PValue.null ∧
    (transform_to_bq_row [("event_type", PValue.str "STATUS_CHANGE")]).source
      = PValue.str "firestore_trigger" :=
  ⟨(C9_row_projection [("event_type", PValue.str "STATUS_CHANGE")]).1 "event_id" rfl,
   (C9_row_projection [("event_type", PValue.str "STATUS_CHANGE")]).2.1,
   (C9_row_projection [("event_type", PValue.str "STATUS_CHANGE")]).2.2.1⟩

/-- C7: each toggle leaves the fields it does not target unchanged — the
status toggle preserves the stored issues map (its merge payload has no
`issues` field), and the issue toggle writes back a `review_status` exactly
equal to the previously stored status (default `NOT_REVIEWED` when absent),
so an issue toggle never changes the review status. -/
theorem C7_frame_effects (store : FS) (req : ToggleRequest) (ireq : IssueToggleRequest)
    (event_id : String) (event_ts : Nat) :
    ((alistLookup (toggle_status_core store req event_id event_ts).1.qc_current_state
        (get_firestore_doc_id req.product_variant_id req.image_index)).bind
      (fun d => d.issues))
      = ((alistLookup store.qc_current_state
            (get_firestore_doc_id req.product_variant_id req.image_index)).bind
          (fun d => d.issues)) ∧
    ((alistLookup (toggle_issue_core store ireq event_id event_ts).1.qc_current_state
        (get_firestore_doc_id ireq.product_variant_id ireq.image_index)).bind
      (fun d => d.review_status))
      = some (currentStatus store
          (get_firestore_doc_id ireq.product_variant_id ireq.image_index)) := by
  constructor
  · cases h : alistLookup store.qc_current_state
        (get_firestore_doc_id req.product_variant_id req.image_index) with
    | none =>
        simp [toggle_status_core, alistLookup_alistSet_self, statusWriteDoc, h, emptyStateDoc]
    | some d =>
        simp [toggle_status_core, alistLookup_alistSet_self, statusWriteDoc, h]
  · simp [toggle_issue_core, alistLookup_alistSet_self, issueWriteDoc]

/-- C10: the status written by the overall toggle is always one of
`NOT_REVIEWED`/`REVIEWED`; any stored value other than exactly
`NOT_REVIEWED` — arbitrary strings included — is flipped to `NOT_REVIEWED`;
and the issue toggle preserves the two-value domain whenever it already
holds for the (defaulted) stored status. -/
theorem C10_status_domain (store : FS) (req : ToggleRequest) (ireq : IssueToggleRequest)
    (event_id : String) (event_ts : Nat) :
    ((alistLookup (toggle_status_core store req event_id event_ts).1.qc_current_state
        (get_firestore_doc_id req.product_variant_id req.image_index)).bind
        (fun d => d.review_status) = some "NOT_REVIEWED" ∨
     (alistLookup (toggle_status_core store req event_id event_ts).1.qc_current_state
        (get_firestore_doc_id req.product_variant_id req.image_index)).bind
        (fun d => d.review_status) = some "REVIEWED") ∧
    (∀ v, (alistLookup store.qc_current_state
            (get_firestore_doc_id req.product_variant_id req.image_index)).bind
            (fun d => d.review_status) = some v →
        v ≠ "NOT_REVIEWED" →
        (alistLookup (toggle_status_core store req event_id event_ts).1.qc_current_state
            (get_firestore_doc_id req.product_variant_id req.image_index)).bind
          (fun d => d.review_status) = some "NOT_REVIEWED") ∧
    ((currentStatus store (get_firestore_doc_id ireq.product_variant_id ireq.image_index)
        = "NOT_REVIEWED" ∨
      currentStatus store (get_firestore_doc_id ireq.product_variant_id ireq.image_index)
        = "REVIEWED") →
      ((alistLookup (toggle_issue_core store ireq event_id event_ts).1.qc_current_state
          (get_firestore_doc_id ireq.product_variant_id ireq.image_index)).bind
          (fun d => d.review_status) = some "NOT_REVIEWED" ∨
       (alistLookup (toggle_issue_core store ireq event_id event_ts).1.qc_current_state
          (get_firestore_doc_id ireq.product_variant_id ireq.image_index)).bind
          (fun d => d.review_status) = some "REVIEWED")) := by
  refine ⟨?_, ?_, ?_⟩
  · by_cases h : currentStatus store
        (get_firestore_doc_id req.product_variant_id req.image_index) = "NOT_REVIEWED"
    · right
      simp [toggle_status_core, alistLookup_alistSet_self, statusWriteDoc, newStatusOf, h]
    · left
      simp [toggle_status_core, alistLookup_alistSet_self, statusWriteDoc, newStatusOf, h]
  · intro v hv hne
    cases h : alistLookup store.qc_current_state
        (get_firestore_doc_id req.product_variant_id req.image_index) with
    | none => rw [h] at hv; simp at hv
    | some d =>
        rw [h] at hv
        simp at hv
        have hcur : currentStatus store
            (get_firestore_doc_id req.product_variant_id req.image_index) = v := by
          simp [currentStatus, h, hv]
        simp [toggle_status_core, alistLookup_alistSet_self, statusWriteDoc,
          newStatusOf, hcur, hne]
  · intro h
    have hw : (alistLookup (toggle_issue_core store ireq event_id event_ts).1.qc_current_state
        (get_firestore_doc_id ireq.product_variant_id ireq.image_index)).bind
        (fun d => d.review_status)
        = some (currentStatus store
            (get_firestore_doc_id ireq.product_variant_id ireq.image_index)) := by
      simp [toggle_issue_core, alistLookup_alistSet_self, issueWriteDoc]
    rcases h with h | h
    · left; rw [hw, h]
    · right; rw [hw, h]

/-- A store holding a review state with an out-of-domain status value. -/
def c10Store : FS :=
  { qc_current_state :=
      [(get_firestore_doc_id "p" 1, { emptyStateDoc with review_status := some "GARBAGE" })],
    qc_event_log := [], reviewers := [] }

def c10Req : ToggleRequest :=
  { product_variant_id := "p", image_index := 1, actor := "qc@example.com" }

def c10IssueReq : IssueToggleRequest :=
  { product_variant_id := "p", image_index := 1, actor := "qc@example.com",
    issue_key := "image_blur", value := true }

/-- Witness for C10: toggling a state whose stored status is the arbitrary
string `GARBAGE` re-establishes the two-value domain with `NOT_REVIEWED`. -/
theorem C10_status_domain_witness :
    (alistLookup (toggle_status_core c10Store c10Req "e1" 0).1.qc_current_state
        (get_firestore_doc_id "p" 1)).bind (fun d => d.review_status)
      = some "NOT_REVIEWED" :=
  (C10_status_domain c10Store c10Req c10IssueReq "e1" 0).2.1 "GARBAGE"
    (by decide) (by decide)

theorem toggle_status_core_state (store : FS) (req : ToggleRequest) (event_id : String)
    (event_ts : Nat) :
    (toggle_status_core store req event_id event_ts).1.qc_current_state
      = alistSet store.qc_current_state
          (get_firestore_doc_id req.product_variant_id req.image_index)
          (statusWriteDoc store req event_ts) := rfl

theorem toggle_status_core_log (store : FS) (req : ToggleRequest) (event_id : String)
    (event_ts : Nat) :
    (toggle_status_core store req event_id event_ts).1.qc_event_log
      = alistSet store.qc_event_log event_id (statusEventOf store req event_id event_ts) := rfl

theorem toggle_issue_core_state (store : FS) (req : IssueToggleRequest) (event_id : String)
    (event_ts : Nat) :
    (toggle_issue_core store req event_id event_ts).1.qc_current_state
      = alistSet store.qc_current_state
          (get_firestore_doc_id req.product_variant_id req.image_index)
          (issueWriteDoc store req event_ts) := rfl

theorem toggle_issue_core_log (store : FS) (req : IssueToggleRequest) (event_id : String)
    (event_ts : Nat) :
    (toggle_issue_core store req event_id event_ts).1.qc_event_log
      = alistSet store.qc_event_log event_id (issueEventOf store req event_id event_ts) := rfl

/-- C1: toggling the overall status twice on a key with no prior review
state ends with persisted `review_status = NOT_REVIEWED` and appends exactly
two `STATUS_CHANGE` events with correctly chained old/new pairs
(`NOT_REVIEWED → REVIEWED`, then `REVIEWED → NOT_REVIEWED`), each toggle
returning the status it wrote. -/
theorem C1_double_status_toggle (store : FS) (req : ToggleRequest) (id1 id2 : String)
    (ts1 ts2 : Nat)
    (hdoc : alistLookup store.qc_current_state
        (get_firestore_doc_id req.product_variant_id req.image_index) = none)
    (h1 : alistLookup store.qc_event_log id1 = none)
    (h2 : alistLookup store.qc_event_log id2 = none)
    (h12 : id1 ≠ id2) :
    (toggle_status_core store req id1 ts1).2.new_status = "REVIEWED" ∧
    (toggle_status_core (toggle_status_core store req id1 ts1).1 req id2 ts2).2.new_status
      = "NOT_REVIEWED" ∧
    (alistLookup
        (toggle_status_core (toggle_status_core store req id1 ts1).1 req id2 ts2).1.qc_current_state
        (get_firestore_doc_id req.product_variant_id req.image_index)).bind
      (fun d => d.review_status) = some "NOT_REVIEWED" ∧
    ∃ e1 e2 : EventDoc,
      (toggle_status_core (toggle_status_core store req id1 ts1).1 req id2 ts2).1.qc_event_log
        = store.qc_event_log ++ [(id1, e1), (id2, e2)] ∧
      e1.event_type = "STATUS_CHANGE" ∧ e1.old_status = some "NOT_REVIEWED" ∧
      e1.new_status = some "REVIEWED" ∧
      e2.event_type = "STATUS_CHANGE" ∧ e2.old_status = some "REVIEWED" ∧
      e2.new_status = some "NOT_REVIEWED" ∧
      e1.new_status = some (toggle_status_core store req id1 ts1).2.new_status ∧
      e2.new_status
        = some (toggle_status_core (toggle_status_core store req id1 ts1).1 req id2 ts2).2.new_status := by
  have hcs1 : currentStatus store
      (get_firestore_doc_id req.product_variant_id req.image_index) = "NOT_REVIEWED" := by
    simp [currentStatus, hdoc]
  have hns1 : newStatusOf store
      (get_firestore_doc_id req.product_variant_id req.image_index) = "REVIEWED" := by
    simp [newStatusOf, hcs1]
  have hlk1 : alistLookup (toggle_status_core store req id1 ts1).1.qc_current_state
      (get_firestore_doc_id req.product_variant_id req.image_index)
      = some (statusWriteDoc store req ts1) := by
    simp [toggle_status_core, alistLookup_alistSet_self]
  have hcs2 : currentStatus (toggle_status_core store req id1 ts1).1
      (get_firestore_doc_id req.product_variant_id req.image_index) = "REVIEWED" := by
    simp [currentStatus, hlk1, statusWriteDoc, hns1]
  have hns2 : newStatusOf (toggle_status_core store req id1 ts1).1
      (get_firestore_doc_id req.product_variant_id req.image_index) = "NOT_REVIEWED" := by
    simp [newStatusOf, hcs2]
  refine ⟨hns1, hns2, ?_,
    statusEventOf store req id1 ts1,
    statusEventOf (toggle_status_core store req id1 ts1).1 req id2 ts2,
    ?_, rfl, ?_, ?_, rfl, ?_, ?_, rfl, rfl⟩
  · rw [toggle_status_core_state, alistLookup_alistSet_self]
    simp [statusWriteDoc, hns2]
  · have hlog1 : (toggle_status_core store req id1 ts1).1.qc_event_log
        = store.qc_event_log ++ [(id1, statusEventOf store req id1 ts1)] := by
      rw [toggle_status_core_log]
      exact alistSet_of_lookup_none _ _ _ h1
    have hlk2 : alistLookup (toggle_status_core store req id1 ts1).1.qc_event_log id2
        = none := by
      rw [hlog1]
      exact alistLookup_append_none _ _ _ h2 (by simp [alistLookup, h12])
    rw [toggle_status_core_log, alistSet_of_lookup_none _ _ _ hlk2, hlog1,
      List.append_assoc]
    rfl
  · simp [statusEventOf, hcs1]
  · simp [statusEventOf, hns1]
  · simp [statusEventOf, hcs2]
  · simp [statusEventOf, hns2]

/-- An empty store and a fixed request, inputs of the C1 witness. -/
def c1Store : FS := { qc_current_state := [], qc_event_log := [], reviewers := [] }

def c1Req : ToggleRequest :=
  { product_variant_id := "p", image_index := 1, actor := "qc@example.com" }

/-- Witness for C1 on an empty store. -/
theorem C1_double_status_toggle_witness :
    (toggle_status_core c1Store c1Req "id1" 0).2.new_status = "REVIEWED" ∧
    (toggle_status_core (toggle_status_core c1Store c1Req "id1" 0).1 c1Req "id2" 1).2.new_status
      = "NOT_REVIEWED" ∧
    (alistLookup
        (toggle_status_core (toggle_status_core c1Store c1Req "id1" 0).1 c1Req "id2" 1).1.qc_current_state
        (get_firestore_doc_id c1Req.product_variant_id c1Req.image_index)).bind
      (fun d => d.review_status) = some "NOT_REVIEWED" ∧
    ∃ e1 e2 : EventDoc,
      (toggle_status_core (toggle_status_core c1Store c1Req "id1" 0).1 c1Req "id2" 1).1.qc_event_log
        = c1Store.qc_event_log ++ [("id1", e1), ("id2", e2)] ∧
      e1.event_type = "STATUS_CHANGE" ∧ e1.old_status = some "NOT_REVIEWED" ∧
      e1.new_status = some "REVIEWED" ∧
      e2.event_type = "STATUS_CHANGE" ∧ e2.old_status = some "REVIEWED" ∧
      e2.new_status = some "NOT_REVIEWED" ∧
      e1.new_status = some (toggle_status_core c1Store c1Req "id1" 0).2.new_status ∧
      e2.new_status
        = some (toggle_status_core (toggle_status_core c1Store c1Req "id1" 0).1 c1Req "id2" 1).2.new_status :=
  C1_double_status_toggle c1Store c1Req "id1" "id2" 0 1 rfl rfl rfl (by decide)

/-- A store and request for exercising the issue toggle twice with
`value = true` from an absent flag. -/
def c3Store : FS := { qc_current_state := [], qc_event_log := [], reviewers := [] }

def c3Req : IssueToggleRequest :=
  { product_variant_id := "p", image_index := 1, actor := "qc@example.com",
    issue_key := "image_blur", value := true }

/-- C3 as stated is false on the code: setting the same flag to true twice
from a false/absent flag does append two `ISSUE_CHANGE` events, but the
*first* event records the actual transition `old_issue_value = false`,
`new_issue_value = true` — it is not the case that each of the two events
has `old == new == true`. -/
theorem C3_counterexample :
    ¬ (∀ p ∈ (toggle_issue_core (toggle_issue_core c3Store c3Req "e1" 0).1
          c3Req "e2" 1).1.qc_event_log,
        p.2.old_issue_value = some true ∧ p.2.new_issue_value = some true) := by
  decide

/-- C3 (amended): calling the issue toggle twice with `value = true` from a
state where the flag is false or absent is idempotent on state — the flag is
true after the first call and after the second — and still appends two
`ISSUE_CHANGE` events; the first records the actual transition
`old = false, new = true`, and the second records `old = new = true`. -/
theorem C3_issue_set_twice (store : FS) (req : IssueToggleRequest) (id1 id2 : String)
    (ts1 ts2 : Nat)
    (hval : req.value = true)
    (hold : oldIssueValueOf store
        (get_firestore_doc_id req.product_variant_id req.image_index) req.issue_key = false)
    (h1 : alistLookup store.qc_event_log id1 = none)
    (h2 : alistLookup store.qc_event_log id2 = none)
    (h12 : id1 ≠ id2) :
    ((alistLookup (toggle_issue_core store req id1 ts1).1.qc_current_state
        (get_firestore_doc_id req.product_variant_id req.image_index)).bind
        (fun d => d.issues)).elim false
      (fun m => (alistLookup m req.issue_key).getD false) = true ∧
    ((alistLookup (toggle_issue_core (toggle_issue_core store req id1 ts1).1 req id2 ts2).1.qc_current_state
        (get_firestore_doc_id req.product_variant_id req.image_index)).bind
        (fun d => d.issues)).elim false
      (fun m => (alistLookup m req.issue_key).getD false) = true ∧
    ∃ e1 e2 : EventDoc,
      (toggle_issue_core (toggle_issue_core store req id1 ts1).1 req id2 ts2).1.qc_event_log
        = store.qc_event_log ++ [(id1, e1), (id2, e2)] ∧
      e1.event_type = "ISSUE_CHANGE" ∧ e1.issue_key = some req.issue_key ∧
      e1.old_issue_value = some false ∧ e1.new_issue_value = some true ∧
      e2.event_type = "ISSUE_CHANGE" ∧ e2.issue_key = some req.issue_key ∧
      e2.old_issue_value = some true ∧ e2.new_issue_value = some true := by
  have hlk1 : alistLookup (toggle_issue_core store req id1 ts1).1.qc_current_state
      (get_firestore_doc_id req.product_variant_id req.image_index)
      = some (issueWriteDoc store req ts1) := by
    rw [toggle_issue_core_state]
    exact alistLookup_alistSet_self _ _ _
  have hold2 : oldIssueValueOf (toggle_issue_core store req id1 ts1).1
      (get_firestore_doc_id req.product_variant_id req.image_index) req.issue_key = true := by
    simp [oldIssueValueOf, currentIssues, hlk1, issueWriteDoc, newIssuesOf,
      alistLookup_alistSet_self, hval]
  refine ⟨?_, ?_,
    issueEventOf store req id1 ts1,
    issueEventOf (toggle_issue_core store req id1 ts1).1 req id2 ts2,
    ?_, rfl, rfl, ?_, ?_, rfl, rfl, ?_, ?_⟩
  · rw [hlk1]
    simp [issueWriteDoc, newIssuesOf, alistLookup_alistSet_self, hval]
  · rw [toggle_issue_core_state, alistLookup_alistSet_self]
    simp [issueWriteDoc, newIssuesOf, alistLookup_alistSet_self, hval]
  · have hlog1 : (toggle_issue_core store req id1 ts1).1.qc_event_log
        = store.qc_event_log ++ [(id1, issueEventOf store req id1 ts1)] := by
      rw [toggle_issue_core_log]
      exact alistSet_of_lookup_none _ _ _ h1
    have hlk2 : alistLookup (toggle_issue_core store req id1 ts1).1.qc_event_log id2
        = none := by
      rw [hlog1]
      exact alistLookup_append_none _ _ _ h2 (by simp [alistLookup, h12])
    rw [toggle_issue_core_log, alistSet_of_lookup_none _ _ _ hlk2, hlog1,
      List.append_assoc]
    rfl
  · simp [issueEventOf, hold]
  · simp [issueEventOf, hval]
  · simp [issueEventOf, hold2]
  · simp [issueEventOf, hval]

/-- Witness for C3 (amended) on an empty store. -/
theorem C3_issue_set_twice_witness :
    ((alistLookup (toggle_issue_core c3Store c3Req "e1" 0).1.qc_current_state
        (get_firestore_doc_id c3Req.product_variant_id c3Req.image_index)).bind
        (fun d => d.issues)).elim false
      (fun m => (alistLookup m c3Req.issue_key).getD false) = true ∧
    ((alistLookup (toggle_issue_core (toggle_issue_core c3Store c3Req "e1" 0).1 c3Req "e2" 1).1.qc_current_state
        (get_firestore_doc_id c3Req.product_variant_id c3Req.image_index)).bind
        (fun d => d.issues)).elim false
      (fun m => (alistLookup m c3Req.issue_key).getD false) = true ∧
    ∃ e1 e2 : EventDoc,
      (toggle_issue_core (toggle_issue_core c3Store c3Req "e1" 0).1 c3Req "e2" 1).1.qc_event_log
        = c3Store.qc_event_log ++ [("e1", e1), ("e2", e2)] ∧
      e1.event_type = "ISSUE_CHANGE" ∧ e1.issue_key = some c3Req.issue_key ∧
      e1.old_issue_value = some false ∧ e1.new_issue_value = some true ∧
      e2.event_type = "ISSUE_CHANGE" ∧ e2.issue_key = some c3Req.issue_key ∧
      e2.old_issue_value = some true ∧ e2.new_issue_value = some true :=
  C3_issue_set_twice c3Store c3Req "e1" "e2" 0 1 rfl (by decide) rfl rfl (by decide)

theorem filterMap_some_eq_map {α β : Type} (f : α → β) (l : List α) :
    l.filterMap (fun a => some (f a)) = l.map f := by
  induction l with
  | nil => rfl
  | cons h t ih => simp [List.filterMap_cons, ih]

theorem mergeImagesLoop_eq (pvid : String) (fs_map : List (String × StateDoc))
    (imgs : List RawImage) (b : Bool) :
    mergeImagesLoop pvid fs_map imgs b
      = (imgs.map (mergeImage pvid fs_map),
         b && imgs.all (fun i => (mergeImage pvid fs_map i).review_status == "REVIEWED")) := by
  induction imgs generalizing b with
  | nil => simp [mergeImagesLoop]
  | cons hd tl ih =>
      simp only [mergeImagesLoop, ih, List.map_cons, List.all_cons]
      by_cases h : (mergeImage pvid fs_map hd).review_status = "REVIEWED"
      · simp [h, Bool.and_assoc]
      · simp [h]

theorem processRawItem_images (fs_map : List (String × StateDoc)) (item : RawItem) :
    (processRawItem fs_map item).images
      = item.images.map (mergeImage item.product_variant_id fs_map) := by
  simp [processRawItem, mergeImagesLoop_eq]

theorem processRawItem_status_cases (fs_map : List (String × StateDoc)) (item : RawItem) :
    (processRawItem fs_map item).pvid_review_status = "REVIEWED" ∨
    (processRawItem fs_map item).pvid_review_status = "NOT_REVIEWED" := by
  simp only [processRawItem]
  split
  · left; rfl
  · right; rfl

theorem processRawItem_reviewed_iff (fs_map : List (String × StateDoc)) (item : RawItem) :
    (processRawItem fs_map item).pvid_review_status = "REVIEWED"
      ↔ ((processRawItem fs_map item).images ≠ [] ∧
         ∀ img ∈ (processRawItem fs_map item).images, img.review_status = "REVIEWED") := by
  rw [processRawItem_images]
  simp only [processRawItem, mergeImagesLoop_eq]
  by_cases he : item.images = []
  · simp [he]
  · by_cases hall : ∀ i ∈ item.images,
        (mergeImage item.product_variant_id fs_map i).review_status = "REVIEWED"
    · simp [he, hall, List.all_eq_true, List.mem_map]
    · have : ¬ ∀ img ∈ item.images.map (mergeImage item.product_variant_id fs_map),
          img.review_status = "REVIEWED" := by
        simpa [List.mem_map] using hall
      simp [he, this, List.all_eq_true]

/-- C2: every product item returned by the read-side merge has
`pvid_review_status = REVIEWED` iff it has at least one populated image slot
and every populated slot's merged status is `REVIEWED`; in particular a
product with zero populated slots always comes out `NOT_REVIEWED`. -/
theorem C2_aggregate_status (bq_rows : List BqRow) (fs_map : List (String × StateDoc))
    (status : Option String) :
    ∀ item ∈ get_images_merge bq_rows fs_map status,
      ((item.pvid_review_status = "REVIEWED"
          ↔ (item.images ≠ [] ∧ ∀ img ∈ item.images, img.review_status = "REVIEWED")) ∧
       (item.images = [] → item.pvid_review_status = "NOT_REVIEWED")) := by
  intro item hmem
  simp only [get_images_merge, List.mem_filterMap] at hmem
  obtain ⟨raw, hraw, hsome⟩ := hmem
  split at hsome
  · cases hsome
    refine ⟨processRawItem_reviewed_iff fs_map raw, ?_⟩
    intro hnil
    rcases processRawItem_status_cases fs_map raw with h | h
    · exact absurd ((processRawItem_reviewed_iff fs_map raw).mp h).1 (by simp [hnil])
    · exact h
  · exact absurd hsome (by simp)

/-- A catalog row with no populated image slots, input of the C2 witness. -/
def c2Row : BqRow :=
  { product_variant_id := "p", brand_name := "b", product_name := "n",
    category_name := "c", subcategory_name := "s", l3_category_name := "l",
    created_date_bucket_label := "Last 10 Days",
    image_url := fun _ => none, aspect_ratio := fun _ => none,
    meta_3x4 := fun _ => none, hide_padding := fun _ => none,
    dpi := fun _ => none, white_bg := fun _ => none }

/-- The page item the merge produces for `c2Row` with no review state. -/
def c2Item : PvidItem :=
  { product_variant_id := "p", brand_name := "b", product_name := "n",
    category_name := "c", subcategory_name := "s", l3_category_name := "l",
    created_date_bucket_label := "Last 10 Days",
    pvid_review_status := "NOT_REVIEWED", images := [] }

/-- Witness for C2: a product with zero populated slots is returned with
`NOT_REVIEWED`. -/
theorem C2_aggregate_status_witness :
    (c2Item.pvid_review_status = "REVIEWED"
      ↔ (c2Item.images ≠ [] ∧ ∀ img ∈ c2Item.images, img.review_status = "REVIEWED")) ∧
    (c2Item.images = [] → c2Item.pvid_review_status = "NOT_REVIEWED") :=
  C2_aggregate_status [c2Row] [] none c2Item (by decide)

theorem keepByStatus_reviewed (p : String) :
    keepByStatus (some "REVIEWED") p = true ↔ p = "REVIEWED" := by
  by_cases hp : p = "REVIEWED" <;> simp [keepByStatus, hp]

theorem keepByStatus_not_reviewed (p : String) :
    keepByStatus (some "NOT_REVIEWED") p = true ↔ p ≠ "REVIEWED" := by
  by_cases hp : p = "REVIEWED" <;> simp [keepByStatus, hp]

/-- C6: with `status=REVIEWED` only products whose computed aggregate is
`REVIEWED` are returned; with `status=NOT_REVIEWED` only products whose
aggregate is not `REVIEWED`; with `status` absent or `All` no product of the
fetched catalog page is dropped (the result is exactly the grouped page,
product for product) — for every fetched row list, however long. -/
theorem C6_status_filter (bq_rows : List BqRow) (fs_map : List (String × StateDoc)) :
    (∀ item ∈ get_images_merge bq_rows fs_map (some "REVIEWED"),
        item.pvid_review_status = "REVIEWED") ∧
    (∀ item ∈ get_images_merge bq_rows fs_map (some "NOT_REVIEWED"),
        item.pvid_review_status ≠ "REVIEWED") ∧
    get_images_merge bq_rows fs_map none
      = (build_pvid_items bq_rows).map (processRawItem fs_map) ∧
    get_images_merge bq_rows fs_map (some "All")
      = (build_pvid_items bq_rows).map (processRawItem fs_map) ∧
    (get_images_merge bq_rows fs_map none).map (fun i => i.product_variant_id)
      = (build_pvid_items bq_rows).map (fun r => r.product_variant_id) := by
  have hnone : get_images_merge bq_rows fs_map none
      = (build_pvid_items bq_rows).map (processRawItem fs_map) := by
    simp only [get_images_merge, keepByStatus, if_true]
    exact filterMap_some_eq_map _ _
  refine ⟨?_, ?_, hnone, ?_, ?_⟩
  · intro item hmem
    simp only [get_images_merge, List.mem_filterMap] at hmem
    obtain ⟨raw, hraw, hsome⟩ := hmem
    split at hsome
    · cases hsome
      exact (keepByStatus_reviewed _).mp (by assumption)
    · exact absurd hsome (by simp)
  · intro item hmem
    simp only [get_images_merge, List.mem_filterMap] at hmem
    obtain ⟨raw, hraw, hsome⟩ := hmem
    split at hsome
    · cases hsome
      exact (keepByStatus_not_reviewed _).mp (by assumption)
    · exact absurd hsome (by simp)
  · have hall : ∀ p, keepByStatus (some "All") p = true := by
      intro p; simp [keepByStatus]
    simp only [get_images_merge, hall, if_true]
    exact filterMap_some_eq_map _ _
  · rw [hnone, List.map_map]
    rfl

/-- A catalog row with one populated slot, input of the C6 witness. -/
def c6Row : BqRow :=
  { product_variant_id := "p", brand_name := "b", product_name := "n",
    category_name := "c", subcategory_name := "s", l3_category_name := "l",
    created_date_bucket_label := "Last 10 Days",
    image_url := fun idx => if idx = 1 then some "u1" else none,
    aspect_ratio := fun _ => none, meta_3x4 := fun _ => none,
    hide_padding := fun _ => none, dpi := fun _ => none, white_bg := fun _ => none }

/-- A review-state map marking the one slot of `c6Row` as reviewed. -/
def c6Map : List (String × StateDoc) :=
  [(get_firestore_doc_id "p" 1, { emptyStateDoc with review_status := some "REVIEWED" })]

/-- The page item the merge produces for `c6Row` under `c6Map`. -/
def c6Item : PvidItem :=
  { product_variant_id := "p", brand_name := "b", product_name := "n",
    category_name := "c", subcategory_name := "s", l3_category_name := "l",
    created_date_bucket_label := "Last 10 Days",
    pvid_review_status := "REVIEWED",
    images :=
      [{ image_index := 1, image_url := "u1", aspect_ratio_value := none,
         meta_3x4 := none, hide_padding := none, dpi := none, white_bg := none,
         review_status := "REVIEWED",
         issues :=
           { image_blur := false, cropped_image := false,
             mrp_present_in_image := false, image_quality := false,
             aspect_ratio := false },
         updated_by := none, updated_at := none }] }

/-- Witness for C6: the fully reviewed product passes the `REVIEWED` filter
with aggregate `REVIEWED`, and the unfiltered page drops nothing. -/
theorem C6_status_filter_witness :
    c6Item.pvid_review_status = "REVIEWED" ∧
    get_images_merge [c6Row] c6Map none
      = (build_pvid_items [c6Row]).map (processRawItem c6Map) :=
  ⟨(C6_status_filter [c6Row] c6Map).1 c6Item (by decide),
   (C6_status_filter [c6Row] c6Map).2.2.1⟩
